import Mathlib

/-!
Shallow embedding of the four-pillar (Bazi) core of
`src/server/services/yijingAnalyzer.cjs`: sexagenary data, the five-element
relation algebra, the Ten-God classification, the elemental-strength scorer
and the use-god inference, together with the pillar computations.

JavaScript numbers appearing in the scoring code are embedded as exact
rationals (`ℚ`); all score literals involved (`0.3`, `0.6`, `1.5`, …) keep the
comparisons of the source away from any floating-point boundary, so the
rational embedding agrees with the source on every comparison it performs.
External collaborators that are not part of the repository snapshot
(solar-term resolver, perpetual-calendar day-pillar lookup) are parameters of
the embedded functions.
-/

namespace Suanming

/-- The five elements 木 / 火 / 土 / 金 / 水. -/
inductive Element
  | wood
  | fire
  | earth
  | metal
  | water
deriving DecidableEq, Repr, Fintype

/-- The ten heavenly stems 甲乙丙丁戊己庚辛壬癸, in cycle order. -/
inductive Stem
  | jia
  | yi
  | bing
  | ding
  | wu
  | ji
  | geng
  | xin
  | ren
  | gui
deriving DecidableEq, Repr, Fintype

/-- The twelve earthly branches 子丑寅卯辰巳午未申酉戌亥, in cycle order. -/
inductive Branch
  | zi
  | chou
  | yin
  | mao
  | chen
  | si
  | wu
  | wei
  | shen
  | you
  | xu
  | hai
deriving DecidableEq, Repr, Fintype

/-- Stem polarity 阳 / 阴. -/
inductive Polarity
  | yang
  | yin
deriving DecidableEq, Repr, Fintype

/-- `getElementFromStem` (yijingAnalyzer.cjs:2858): the element of each stem.
The source's `|| '土'` fallback is unreachable on the typed 10-stem domain. -/
def getElementFromStem : Stem → Element
  | .jia => .wood
  | .yi => .wood
  | .bing => .fire
  | .ding => .fire
  | .wu => .earth
  | .ji => .earth
  | .geng => .metal
  | .xin => .metal
  | .ren => .water
  | .gui => .water

/-- `getStemYinYang` (yijingAnalyzer.cjs:2364): 甲丙戊庚壬 are yang, the rest yin. -/
def getStemYinYang (stem : Stem) : Polarity :=
  if stem = .jia ∨ stem = .bing ∨ stem = .wu ∨ stem = .geng ∨ stem = .ren then
    .yang
  else
    .yin

/-- The outcome vocabulary of `getElementRelation` (yijingAnalyzer.cjs:2875). -/
inductive ElementRelation
  | same
  | generate
  | overcome
  | beGenerated
  | beOvercome
  | neutral
deriving DecidableEq, Repr, Fintype

/-- The production cycle `generateCycle` of `getElementRelation`:
木→火→土→金→水→木. -/
def generateCycle : Element → Element
  | .wood => .fire
  | .fire => .earth
  | .earth => .metal
  | .metal => .water
  | .water => .wood

/-- The destruction cycle `overcomeCycle` of `getElementRelation`:
木→土, 火→金, 土→水, 金→木, 水→火. -/
def overcomeCycle : Element → Element
  | .wood => .earth
  | .fire => .metal
  | .earth => .water
  | .metal => .wood
  | .water => .fire

/-- `getElementRelation` (yijingAnalyzer.cjs:2875): the relation of `element1`
to `element2` — `generate` when `element1` produces `element2`, `overcome`
when `element1` destroys `element2`, `beGenerated` when `element2` produces
`element1`, `beOvercome` when `element2` destroys `element1`. -/
def getElementRelation (element1 element2 : Element) : ElementRelation :=
  if element1 = element2 then .same
  else if generateCycle element1 = element2 then .generate
  else if overcomeCycle element1 = element2 then .overcome
  else if generateCycle element2 = element1 then .beGenerated
  else if overcomeCycle element2 = element1 then .beOvercome
  else .neutral

/-- The ten-god vocabulary returned by `calculateTenGod`, including the
`未知` fallback of the `default` branch. -/
inductive TenGod
  | biJian
  | jieCai
  | shiShen
  | shangGuan
  | pianCai
  | zhengCai
  | qiSha
  | zhengGuan
  | pianYinStar
  | zhengYinStar
  | weiZhi
deriving DecidableEq, Repr, Fintype

/-- `calculateTenGod` (yijingAnalyzer.cjs:2333): classify `targetStem`
relative to the day master by five-element relation and polarity match. -/
def calculateTenGod (dayMaster targetStem : Stem) : TenGod :=
  if dayMaster = targetStem then .biJian
  else
    let dayElement := getElementFromStem dayMaster
    let targetElement := getElementFromStem targetStem
    let relation := getElementRelation dayElement targetElement
    let sameYinYang := getStemYinYang dayMaster = getStemYinYang targetStem
    match relation with
    | .same => if sameYinYang then .biJian else .jieCai
    | .generate => if sameYinYang then .shiShen else .shangGuan
    | .overcome => if sameYinYang then .pianCai else .zhengCai
    | .beOvercome => if sameYinYang then .qiSha else .zhengGuan
    | .beGenerated => if sameYinYang then .pianYinStar else .zhengYinStar
    | .neutral => .weiZhi

/-- The season-strength vocabulary of `getMonthStrength` and the weight table
of `calculateOverallStrength`, including the `平` fallback. -/
inductive SeasonStrength
  | wang
  | xiang
  | xiu
  | qiu
  | si
  | jue
  | mu
  | sheng
  | yuqi
  | ping
deriving DecidableEq, Repr, Fintype

/-- One row of the `seasonStrength` table of `getMonthStrength`
(yijingAnalyzer.cjs:2396), as the source writes it per element. -/
def seasonStrengthRow : Element → Branch → SeasonStrength
  | .wood, .yin => .wang
  | .wood, .mao => .wang
  | .wood, .chen => .yuqi
  | .wood, .si => .si
  | .wood, .wu => .si
  | .wood, .wei => .si
  | .wood, .shen => .jue
  | .wood, .you => .jue
  | .wood, .xu => .mu
  | .wood, .hai => .sheng
  | .wood, .zi => .sheng
  | .wood, .chou => .xiu
  | .fire, .yin => .sheng
  | .fire, .mao => .sheng
  | .fire, .chen => .xiu
  | .fire, .si => .wang
  | .fire, .wu => .wang
  | .fire, .wei => .yuqi
  | .fire, .shen => .si
  | .fire, .you => .si
  | .fire, .xu => .mu
  | .fire, .hai => .jue
  | .fire, .zi => .jue
  | .fire, .chou => .si
  | .earth, .yin => .si
  | .earth, .mao => .si
  | .earth, .chen => .wang
  | .earth, .si => .xiang
  | .earth, .wu => .xiang
  | .earth, .wei => .wang
  | .earth, .shen => .xiu
  | .earth, .you => .xiu
  | .earth, .xu => .wang
  | .earth, .hai => .si
  | .earth, .zi => .si
  | .earth, .chou => .wang
  | .metal, .yin => .jue
  | .metal, .mao => .jue
  | .metal, .chen => .mu
  | .metal, .si => .si
  | .metal, .wu => .si
  | .metal, .wei => .si
  | .metal, .shen => .wang
  | .metal, .you => .wang
  | .metal, .xu => .yuqi
  | .metal, .hai => .sheng
  | .metal, .zi => .sheng
  | .metal, .chou => .xiang
  | .water, .yin => .si
  | .water, .mao => .si
  | .water, .chen => .mu
  | .water, .si => .jue
  | .water, .wu => .jue
  | .water, .wei => .si
  | .water, .shen => .sheng
  | .water, .you => .sheng
  | .water, .xu => .si
  | .water, .hai => .wang
  | .water, .zi => .wang
  | .water, .chou => .yuqi

/-- `getMonthStrength` (yijingAnalyzer.cjs:2396): the table lookup with the
source's `|| '平'` fallback. On the typed 5×12 domain the row function is
total, so the fallback stage is written exactly as the source's
`seasonStrength[element]?.[monthBranch] || '平'` collapses on defined keys. -/
def getMonthStrength (element : Element) (monthBranch : Branch) : SeasonStrength :=
  seasonStrengthRow element monthBranch

/-- The label→weight map of `calculateOverallStrength`
(yijingAnalyzer.cjs:2487): 旺4 相2 休0 囚-2 死-3 绝-4 墓-1 生1 余气1, `|| 0`
for anything else (the 平 fallback). -/
def monthScoreOf : SeasonStrength → ℚ
  | .wang => 4
  | .xiang => 2
  | .xiu => 0
  | .qiu => -2
  | .si => -3
  | .jue => -4
  | .mu => -1
  | .sheng => 1
  | .yuqi => 1
  | .ping => 0

/-- A (stem, branch) pillar as produced by the pillar calculators and consumed
by the strength scorer. -/
structure Pillar where
  stem : Stem
  branch : Branch
deriving DecidableEq, Repr

/-- The four pillars passed to `analyzeElementStrength`
(yijingAnalyzer.cjs:2171): the object `{year, month, day, hour}`, whose
`Object.values`/`Object.entries` enumeration order is year, month, day, hour. -/
structure FourPillars where
  year : Pillar
  month : Pillar
  day : Pillar
  hour : Pillar
deriving DecidableEq, Repr

/-- Modelled from the spec: `BaseData.getBranchHiddenStems` — the class
`BaseData` (server/services/common/BaseData.cjs) is not part of the snapshot;
the spec describes "each Branch's hidden-stem set (1–3 stems with a
main/middle/residual weight ordering)". This is the traditional hidden-stem
table in main/middle/residual order. -/
def getBranchHiddenStems : Branch → List Stem
  | .zi => [.gui]
  | .chou => [.ji, .gui, .xin]
  | .yin => [.jia, .bing, .wu]
  | .mao => [.yi]
  | .chen => [.wu, .yi, .gui]
  | .si => [.bing, .geng, .wu]
  | .wu => [.ding, .ji]
  | .wei => [.ji, .ding, .yi]
  | .shen => [.geng, .ren, .wu]
  | .you => [.xin]
  | .xu => [.wu, .xin, .ding]
  | .hai => [.ren, .jia]

/-- The level vocabulary 强 / 中 / 弱 / 很弱 of the two support analyzers. -/
inductive SupportLevel
  | qiang
  | zhong
  | ruo
  | henRuo
deriving DecidableEq, Repr, Fintype

/-- One itemized entry of `analyzeHiddenStemSupport`'s `supportDetails`. -/
structure HiddenDetail where
  branch : Branch
  hidden_stem : Stem
  relation : ElementRelation
  score : ℚ
deriving DecidableEq, Repr

/-- The `if`-chain giving the base score of one hidden stem in
`analyzeHiddenStemSupport` (yijingAnalyzer.cjs:2419–2424), as a function of
the computed relation (`score` stays `0` on the unmatched `neutral` case). -/
def hiddenRelationScore (relation : ElementRelation) : ℚ :=
  if relation = .same then 3
  else if relation = .beGenerated then 2
  else if relation = .generate then -1
  else if relation = .overcome then -2
  else if relation = .beOvercome then -3
  else 0

/-- `positionMultiplier` of `analyzeHiddenStemSupport`
(yijingAnalyzer.cjs:2427): main 1.0, middle 0.6, residual 0.3 by index. -/
def positionMultiplier (index : Nat) : ℚ :=
  if index = 0 then 1 else if index = 1 then 0.6 else 0.3

/-- The result record of `analyzeHiddenStemSupport`. -/
structure HiddenSupportResult where
  total_score : ℚ
  details : List HiddenDetail
  level : SupportLevel
deriving DecidableEq, Repr

/-- `analyzeHiddenStemSupport` (yijingAnalyzer.cjs:2409–2447): for every
pillar (in object order year, month, day, hour) and every hidden stem of its
branch (with index), compute `getElementRelation(hiddenElement, dayElement)`,
score it, weight it by position, accumulate the total, and itemize every
contribution with `Math.abs(finalScore) > 0.5`. -/
def analyzeHiddenStemSupport (dayElement : Element) (pillars : FourPillars) :
    HiddenSupportResult :=
  let pillarValues := [pillars.year, pillars.month, pillars.day, pillars.hour]
  let r := pillarValues.foldl
    (fun acc pillar =>
      let hiddenStems := getBranchHiddenStems pillar.branch
      hiddenStems.enum.foldl
        (fun acc2 indexedStem =>
          let index := indexedStem.1
          let hiddenStem := indexedStem.2
          let hiddenElement := getElementFromStem hiddenStem
          let relation := getElementRelation hiddenElement dayElement
          let finalScore := hiddenRelationScore relation * positionMultiplier index
          (acc2.1 + finalScore,
           if |finalScore| > 0.5 then
             acc2.2 ++ [{ branch := pillar.branch, hidden_stem := hiddenStem,
                          relation := relation, score := finalScore : HiddenDetail }]
           else acc2.2))
        acc)
    ((0 : ℚ), ([] : List HiddenDetail))
  { total_score := r.1
    details := r.2
    level :=
      if r.1 > 3 then .qiang
      else if r.1 > 0 then .zhong
      else if r.1 > -3 then .ruo
      else .henRuo }

/-- The pillar positions used as `Object.entries` keys in
`analyzeStemSupport`. -/
inductive PillarPosition
  | year
  | month
  | day
  | hour
deriving DecidableEq, Repr, Fintype

/-- One itemized entry of `analyzeStemSupport`'s `supportDetails`. -/
structure StemDetail where
  position : PillarPosition
  stem : Stem
  relation : ElementRelation
  score : ℚ
deriving DecidableEq, Repr

/-- The `if`-chain giving the score of one visible stem in
`analyzeStemSupport` (yijingAnalyzer.cjs:2460–2465), as a function of the
computed relation. -/
def stemRelationScore (relation : ElementRelation) : ℚ :=
  if relation = .same then 2
  else if relation = .beGenerated then 1.5
  else if relation = .generate then -0.5
  else if relation = .overcome then -1
  else if relation = .beOvercome then -1.5
  else 0

/-- The result record of `analyzeStemSupport`. -/
structure StemSupportResult where
  total_score : ℚ
  details : List StemDetail
  level : SupportLevel
deriving DecidableEq, Repr

/-- `analyzeStemSupport` (yijingAnalyzer.cjs:2450–2483): over
`Object.entries(pillars)` in order year, month, day, hour, skip the `day`
entry, compute `getElementRelation(stemElement, dayElement)`, score it with no
positional weighting, accumulate, and itemize every contribution with
`Math.abs(score) > 0`. -/
def analyzeStemSupport (dayElement : Element) (pillars : FourPillars) :
    StemSupportResult :=
  let entries : List (PillarPosition × Pillar) :=
    [(.year, pillars.year), (.month, pillars.month),
     (.day, pillars.day), (.hour, pillars.hour)]
  let r := entries.foldl
    (fun acc entry =>
      if entry.1 = .day then acc
      else
        let stemElement := getElementFromStem entry.2.stem
        let relation := getElementRelation stemElement dayElement
        let score := stemRelationScore relation
        (acc.1 + score,
         if |score| > 0 then
           acc.2 ++ [{ position := entry.1, stem := entry.2.stem,
                       relation := relation, score := score : StemDetail }]
         else acc.2))
    ((0 : ℚ), ([] : List StemDetail))
  { total_score := r.1
    details := r.2
    level :=
      if r.1 > 2 then .qiang
      else if r.1 > 0 then .zhong
      else if r.1 > -2 then .ruo
      else .henRuo }

/-- The record returned by `calculateOverallStrength`
(yijingAnalyzer.cjs:2486–2499). -/
structure OverallStrength where
  month_score : ℚ
  hidden_score : ℚ
  stem_score : ℚ
  total_score : ℚ
deriving DecidableEq, Repr

/-- `calculateOverallStrength` (yijingAnalyzer.cjs:2486): month score from the
label→weight map plus the two support totals, summed with no extra
weighting. -/
def calculateOverallStrength (monthStrength : SeasonStrength)
    (hiddenSupport : HiddenSupportResult) (stemSupport : StemSupportResult) :
    OverallStrength :=
  let monthScore := monthScoreOf monthStrength
  { month_score := monthScore
    hidden_score := hiddenSupport.total_score
    stem_score := stemSupport.total_score
    total_score := monthScore + hiddenSupport.total_score + stemSupport.total_score }

/-- The strength-level vocabulary 太旺 / 偏旺 / 中和 / 偏弱 / 太弱. -/
inductive StrengthLevel
  | taiWang
  | pianWang
  | zhongHe
  | pianRuo
  | taiRuo
deriving DecidableEq, Repr, Fintype

/-- `getStrengthLevel` (yijingAnalyzer.cjs:2502–2509): classify the total
score with thresholds 6, 3, −1, −4. -/
def getStrengthLevel (overallStrength : OverallStrength) : StrengthLevel :=
  let score := overallStrength.total_score
  if score ≥ 6 then .taiWang
  else if score ≥ 3 then .pianWang
  else if score ≥ -1 then .zhongHe
  else if score ≥ -4 then .pianRuo
  else .taiRuo

/-- `getRestrainElements` (yijingAnalyzer.cjs:2549): 官杀 — the element that
destroys the given one, per the literal map of the source. -/
def getRestrainElements : Element → List Element
  | .wood => [.metal]
  | .fire => [.water]
  | .earth => [.wood]
  | .metal => [.fire]
  | .water => [.earth]

/-- `getDrainElements` (yijingAnalyzer.cjs:2560): 食伤 — the element the given
one produces, per the literal map of the source. -/
def getDrainElements : Element → List Element
  | .wood => [.fire]
  | .fire => [.earth]
  | .earth => [.metal]
  | .metal => [.water]
  | .water => [.wood]

/-- `getConsumeElements` (yijingAnalyzer.cjs:2571): 财星 — the element the
given one destroys, per the literal map of the source. -/
def getConsumeElements : Element → List Element
  | .wood => [.earth]
  | .fire => [.metal]
  | .earth => [.water]
  | .metal => [.wood]
  | .water => [.fire]

/-- `getGenerateElements` (yijingAnalyzer.cjs:2582): 印星 — the element that
produces the given one, per the literal map of the source. -/
def getGenerateElements : Element → List Element
  | .wood => [.water]
  | .fire => [.wood]
  | .earth => [.fire]
  | .metal => [.earth]
  | .water => [.metal]

/-- The element payload of a `use_god` / `avoid_god` field: the source renders
these as labeled Chinese strings (e.g. `金（官杀）、火（食伤）、土（财星）`);
the balanced branch uses fixed phrases naming no element
(因时制宜，随运而变 / 过旺过弱之五行), embedded as `situational`. -/
inductive UseGodElems
  | fixed (elements : List Element)
  | situational
deriving DecidableEq, Repr

/-- The result record of `analyzeUseGod` (without the purely narrative
`analysis` string). -/
structure UseGodResult where
  use_god : UseGodElems
  avoid_god : UseGodElems
  strength_level : StrengthLevel
deriving DecidableEq, Repr

/-- `analyzeUseGod` (yijingAnalyzer.cjs:2512–2547): classify the strength,
then — strong: use 官杀/食伤/财星 (restrain, drain, consume) and avoid the day
element plus 印星 (generate); weak: use 印星 plus the day element and avoid
restrain/drain/consume; balanced: situational phrases only. The element lists
are kept in the source's interpolation order; the `pillars` parameter is kept
because the source declares it, although its body never reads it. -/
def analyzeUseGod (dayElement : Element) (strengthAnalysis : OverallStrength)
    (pillars : FourPillars) : UseGodResult :=
  let strengthLevel := getStrengthLevel strengthAnalysis
  if strengthLevel = .taiWang ∨ strengthLevel = .pianWang then
    { use_god := .fixed (getRestrainElements dayElement ++
        getDrainElements dayElement ++ getConsumeElements dayElement)
      avoid_god := .fixed (dayElement :: getGenerateElements dayElement)
      strength_level := strengthLevel }
  else if strengthLevel = .taiRuo ∨ strengthLevel = .pianRuo then
    { use_god := .fixed (getGenerateElements dayElement ++ [dayElement])
      avoid_god := .fixed (getRestrainElements dayElement ++
        getDrainElements dayElement ++ getConsumeElements dayElement)
      strength_level := strengthLevel }
  else
    { use_god := .situational
      avoid_god := .situational
      strength_level := strengthLevel }

/-- The record returned by `analyzeElementStrength`
(yijingAnalyzer.cjs:2369–2393). -/
structure ElementStrengthResult where
  month_strength : SeasonStrength
  hidden_stem_support : HiddenSupportResult
  stem_support : StemSupportResult
  overall_strength : OverallStrength
  strength_level : StrengthLevel
  use_god_analysis : UseGodResult
deriving DecidableEq, Repr

/-- `analyzeElementStrength` (yijingAnalyzer.cjs:2369): composition of the
month-strength lookup, the two support analyzers, the overall-strength sum,
the level classification, and the use-god inference. -/
def analyzeElementStrength (dayMaster : Stem) (monthBranch : Branch)
    (pillars : FourPillars) : ElementStrengthResult :=
  let dayElement := getElementFromStem dayMaster
  let monthStrength := getMonthStrength dayElement monthBranch
  let hiddenStemSupport := analyzeHiddenStemSupport dayElement pillars
  let stemSupport := analyzeStemSupport dayElement pillars
  let overallStrength := calculateOverallStrength monthStrength hiddenStemSupport stemSupport
  { month_strength := monthStrength
    hidden_stem_support := hiddenStemSupport
    stem_support := stemSupport
    overall_strength := overallStrength
    strength_level := getStrengthLevel overallStrength
    use_god_analysis := analyzeUseGod dayElement overallStrength pillars }

/-- Modelled from the spec: `BaseData.getStemByIndex` (BaseData.cjs is not
part of the snapshot) — the 10-stem cycle anchored so that index 0 is 甲 (the
spec anchors 1984, a 甲子 year, to Stem-index 0). Out-of-range indices fall
back to 甲; every use below is proved in range. -/
def getStemByIndex (index : Int) : Stem :=
  [Stem.jia, .yi, .bing, .ding, .wu, .ji, .geng, .xin, .ren, .gui].getD index.toNat .jia

/-- Modelled from the spec: `BaseData.getBranchByIndex` — the 12-branch cycle
anchored so that index 0 is 子 (the spec anchors 1984, a 甲子 year, to
Branch-index 0). -/
def getBranchByIndex (index : Int) : Branch :=
  [Branch.zi, .chou, .yin, .mao, .chen, .si, .wu, .wei, .shen, .you, .xu,
   .hai].getD index.toNat .zi

/-- A pillar record with its cycle indices, as returned by
`calculateYearPillar` and `calculateMonthPillar`. -/
structure PillarIdx where
  stem : Stem
  branch : Branch
  stemIndex : Int
  branchIndex : Int
deriving DecidableEq, Repr

/-- `calculateYearPillar` (yijingAnalyzer.cjs:2206–2231). The collaborator
`SolarTermsCalculator.isAfterSpringBeginning` (server/utils/solarTerms.cjs, not
part of the snapshot) is abstracted as the parameter `isAfterSpringBeginning`,
applied to the (year, month, day, hour, minute) components the source packs
into `new Date(...)`. JavaScript `%` is truncated remainder, embedded as
`Int.tmod`. -/
def calculateYearPillar
    (isAfterSpringBeginning : Int → Int → Int → Int → Int → Bool)
    (year month day hour minute : Int) : PillarIdx :=
  let actualYear :=
    if isAfterSpringBeginning year month day hour minute then year else year - 1
  let stemIndex := (actualYear - 1984).tmod 10
  let branchIndex := (actualYear - 1984).tmod 12
  let finalStemIndex := ((stemIndex.tmod 10) + 10).tmod 10
  let finalBranchIndex := ((branchIndex.tmod 12) + 12).tmod 12
  { stem := getStemByIndex finalStemIndex
    branch := getBranchByIndex finalBranchIndex
    stemIndex := finalStemIndex
    branchIndex := finalBranchIndex }

/-- The `monthStemBase` table of `calculateMonthPillar`
(yijingAnalyzer.cjs:2244): starting month-stem index per year-stem index
(五虎遁). Keys outside 0–9 are absent in the source object; the fallback 0 here
is never exercised by in-range year-stem indices. -/
def monthStemBase : Int → Int
  | 0 => 2
  | 1 => 4
  | 2 => 6
  | 3 => 8
  | 4 => 0
  | 5 => 2
  | 6 => 4
  | 7 => 6
  | 8 => 8
  | 9 => 0
  | _ => 0

/-- The `branchNames` array of `calculateMonthPillar`
(yijingAnalyzer.cjs:2241): 子 first. -/
def branchNames : List Branch :=
  [.zi, .chou, .yin, .mao, .chen, .si, .wu, .wei, .shen, .you, .xu, .hai]

/-- `calculateMonthPillar` (yijingAnalyzer.cjs:2234–2267). The collaborator
`SolarTermsCalculator.getSolarTermMonth` is abstracted as the parameter
`getSolarTermMonthBranch`, returning the solar-month branch for the birth
instant. -/
def calculateMonthPillar
    (getSolarTermMonthBranch : Int → Int → Int → Int → Int → Branch)
    (year month day : Int) (yearStemIndex : Int) (hour minute : Int) :
    PillarIdx :=
  let monthBranch := getSolarTermMonthBranch year month day hour minute
  let monthBranchIndex : Int := branchNames.indexOf monthBranch
  let monthStemIndex :=
    (monthStemBase yearStemIndex + ((monthBranchIndex - 2 + 12).tmod 12)).tmod 10
  { stem := getStemByIndex monthStemIndex
    branch := getBranchByIndex monthBranchIndex
    stemIndex := monthStemIndex
    branchIndex := monthBranchIndex }

/-- The day pillar record returned by the perpetual-calendar collaborator
`WanNianLi.getAccurateDayPillar` (server/utils/wanNianLi.cjs, not part of the
snapshot): a stem/branch pair with in-range cycle indices.
`calculateDayPillar` (yijingAnalyzer.cjs:2270–2272) returns it unchanged, so
the whole lookup is abstracted as a function parameter below. -/
structure DayPillarRec where
  stem : Stem
  branch : Branch
  stemIndex : Fin 10
  branchIndex : Fin 12
deriving DecidableEq, Repr

/-- Gregorian leap-year rule, as used by JavaScript `Date`. -/
def isLeapYear (y : Int) : Bool :=
  (y % 4 == 0 && y % 100 != 0) || y % 400 == 0

/-- Days in a Gregorian month (the fallback 31 is never used for in-range
months). -/
def daysInMonth (y m : Int) : Int :=
  if m = 2 then (if isLeapYear y then 29 else 28)
  else if m = 4 ∨ m = 6 ∨ m = 9 ∨ m = 11 then 30
  else 31

/-- A Gregorian calendar date. -/
structure GDate where
  year : Int
  month : Int
  day : Int
deriving DecidableEq, Repr

/-- Models the JavaScript `new Date(year, month - 1, day + 1)` rollover used
by `calculateHourPillar` (yijingAnalyzer.cjs:2285): for an in-range Gregorian
date it yields the following calendar day. -/
def jsNextDay (year month day : Int) : GDate :=
  if day + 1 > daysInMonth year month then
    if month = 12 then ⟨year + 1, 1, 1⟩ else ⟨year, month + 1, 1⟩
  else ⟨year, month, day + 1⟩

/-- The `hourStemBase` table of `calculateHourPillar`
(yijingAnalyzer.cjs:2306): starting hour-stem index per day-stem index
(五鼠遁). -/
def hourStemBase (i : Fin 10) : Nat :=
  [0, 2, 4, 6, 8, 0, 2, 4, 6, 8].getD i.val 0

/-- The result record of `calculateHourPillar` (the `zishi_type` string is
determined by the two flags and omitted). -/
structure HourPillarRec where
  stem : Stem
  branch : Branch
  stemIndex : Nat
  branchIndex : Nat
  is_late_zishi : Bool
  is_early_zishi : Bool
deriving DecidableEq, Repr

/-- `calculateHourPillar` (yijingAnalyzer.cjs:2275–2330): hour 23 (late 子)
re-queries the day-pillar lookup for the following calendar day and derives
the hour stem from that day's stem index; hour 0 (early 子) keeps the given
day-stem index; both map to branch index 0, other hours to
`⌊(hour+1)/2⌋ % 12`. The hour stem is `(hourStemBase[actual] + branch) % 10`.
`minute` is declared but never read, as in the source. -/
def calculateHourPillar (lookupDayPillar : Int → Int → Int → DayPillarRec)
    (hour minute : Nat) (dayStemIndex : Fin 10) (year month day : Int) :
    HourPillarRec :=
  let actualDayStemIndex : Fin 10 :=
    if hour = 23 then
      let nextDay := jsNextDay year month day
      (lookupDayPillar nextDay.year nextDay.month nextDay.day).stemIndex
    else dayStemIndex
  let hourBranchIndex := if hour = 23 ∨ hour = 0 then 0 else ((hour + 1) / 2) % 12
  let hourStemIndex := (hourStemBase actualDayStemIndex + hourBranchIndex) % 10
  { stem := getStemByIndex (hourStemIndex : Int)
    branch := getBranchByIndex (hourBranchIndex : Int)
    stemIndex := hourStemIndex
    branchIndex := hourBranchIndex
    is_late_zishi := hour = 23
    is_early_zishi := hour = 0 }

/-- The chart assembled by `calculatePreciseBazi` (yijingAnalyzer.cjs:2123):
the four stem/branch pillars, the day master, the 子-hour flags and the
element-strength analysis (per-pillar derived fields — elements, hidden stems,
ten-god labels, nayin names — are recomputable projections and omitted
here). -/
structure BaziChart where
  year_pillar : Pillar
  month_pillar : Pillar
  day_pillar : Pillar
  hour_pillar : Pillar
  day_master : Stem
  hour_is_late_zishi : Bool
  hour_is_early_zishi : Bool
  element_strength : ElementStrengthResult
deriving DecidableEq, Repr

/-- `calculatePreciseBazi` (yijingAnalyzer.cjs:2100–2178), restricted to its
pillar computations: year pillar from the spring boundary, month pillar from
the solar-term month, day pillar from the perpetual-calendar lookup for the
birth day, and hour pillar from `calculateHourPillar` seeded with the birth
day's stem index. The three collaborators are function parameters; the birth
date/time components arrive already parsed. -/
def calculatePreciseBazi
    (isAfterSpringBeginning : Int → Int → Int → Int → Int → Bool)
    (getSolarTermMonthBranch : Int → Int → Int → Int → Int → Branch)
    (lookupDayPillar : Int → Int → Int → DayPillarRec)
    (birthYear birthMonth birthDay : Int) (birthHour birthMinute : Nat) :
    BaziChart :=
  let yearPillar := calculateYearPillar isAfterSpringBeginning
    birthYear birthMonth birthDay (birthHour : Int) (birthMinute : Int)
  let monthPillar := calculateMonthPillar getSolarTermMonthBranch
    birthYear birthMonth birthDay yearPillar.stemIndex (birthHour : Int) (birthMinute : Int)
  let dayPillar := lookupDayPillar birthYear birthMonth birthDay
  let hourPillar := calculateHourPillar lookupDayPillar
    birthHour birthMinute dayPillar.stemIndex birthYear birthMonth birthDay
  let pillars : FourPillars :=
    { year := ⟨yearPillar.stem, yearPillar.branch⟩
      month := ⟨monthPillar.stem, monthPillar.branch⟩
      day := ⟨dayPillar.stem, dayPillar.branch⟩
      hour := ⟨hourPillar.stem, hourPillar.branch⟩ }
  { year_pillar := ⟨yearPillar.stem, yearPillar.branch⟩
    month_pillar := ⟨monthPillar.stem, monthPillar.branch⟩
    day_pillar := ⟨dayPillar.stem, dayPillar.branch⟩
    hour_pillar := ⟨hourPillar.stem, hourPillar.branch⟩
    day_master := dayPillar.stem
    hour_is_late_zishi := hourPillar.is_late_zishi
    hour_is_early_zishi := hourPillar.is_early_zishi
    element_strength := analyzeElementStrength dayPillar.stem monthPillar.branch pillars }

/-- The element lists a `use_god` / `avoid_god` field names (empty for the
situational phrases of the balanced branch). -/
def UseGodElems.elemsOf : UseGodElems → List Element
  | .fixed l => l
  | .situational => []

/-- The visible-stem base score exactly as claim C4 words it: same element
+2, the stem's element produces the day master's +1.5, the stem's element is
produced by the day master's −0.5, the stem's element destroys the day
master's −1, the stem's element is destroyed by the day master's −1.5. -/
def claimedStemScoreC4 (dayElement stemElement : Element) : ℚ :=
  if stemElement = dayElement then 2
  else if generateCycle stemElement = dayElement then 1.5
  else if generateCycle dayElement = stemElement then -0.5
  else if overcomeCycle stemElement = dayElement then -1
  else if overcomeCycle dayElement = stemElement then -1.5
  else 0

/-- The visible-stem base score as claim C4 must be amended to match the
code: the two production entries swap direction — +1.5 when the day master's
element produces the stem's element, −0.5 when the stem's element produces the
day master's element; the destruction entries stay as claimed. -/
def amendedStemScore (dayElement stemElement : Element) : ℚ :=
  if stemElement = dayElement then 2
  else if generateCycle dayElement = stemElement then 1.5
  else if generateCycle stemElement = dayElement then -0.5
  else if overcomeCycle stemElement = dayElement then -1
  else if overcomeCycle dayElement = stemElement then -1.5
  else 0

/-- Spec-side itemization for one visible stem under the amended claim C4: a
contribution is listed exactly when its score is nonzero. -/
def amendedStemDetail (position : PillarPosition) (dayElement : Element)
    (stem : Stem) : List StemDetail :=
  let score := amendedStemScore dayElement (getElementFromStem stem)
  if score ≠ 0 then
    [{ position := position, stem := stem,
       relation := getElementRelation (getElementFromStem stem) dayElement,
       score := score }]
  else []

/-- Spec-side recomputation of the visible-stem support under the amended
claim C4: the unweighted sum over exactly the three non-day stems, with every
nonzero contribution itemized in pillar order. -/
def amendedStemSupportSpec (dayElement : Element) (pillars : FourPillars) :
    ℚ × List StemDetail :=
  (amendedStemScore dayElement (getElementFromStem pillars.year.stem) +
     amendedStemScore dayElement (getElementFromStem pillars.month.stem) +
     amendedStemScore dayElement (getElementFromStem pillars.hour.stem),
   amendedStemDetail .year dayElement pillars.year.stem ++
     amendedStemDetail .month dayElement pillars.month.stem ++
     amendedStemDetail .hour dayElement pillars.hour.stem)

section Lemmas

/-- Truncated remainder is congruent to the dividend. -/
theorem tmod_congr (x b : Int) : x.tmod b % b = x % b := by
  rw [Int.tmod_def, sub_eq_add_neg, ← mul_neg, Int.add_mul_emod_self_left]

/-- Truncated remainder by 10 exceeds −10. -/
theorem tmod_lower_ten (x : Int) : -10 < x.tmod 10 := by
  rw [show (10 : ℤ) = Int.ofNat 10 from rfl]
  cases x <;> simp only [Int.tmod, Int.ofNat_eq_natCast] <;> omega

/-- Truncated remainder by 12 exceeds −12. -/
theorem tmod_lower_twelve (x : Int) : -12 < x.tmod 12 := by
  rw [show (12 : ℤ) = Int.ofNat 12 from rfl]
  cases x <;> simp only [Int.tmod, Int.ofNat_eq_natCast] <;> omega

/-- The source's `((i % 10) + 10) % 10` normalization of a truncated
remainder `i = x % 10` (JavaScript `%`) equals the mathematical residue. -/
theorem tmod_normalize_ten (x : Int) :
    ((x.tmod 10).tmod 10 + 10).tmod 10 = x % 10 := by
  have low := tmod_lower_ten (x.tmod 10)
  have hi := Int.tmod_lt_of_pos (x.tmod 10) (show (0 : ℤ) < 10 by norm_num)
  have c1 := tmod_congr x 10
  have c2 := tmod_congr (x.tmod 10) 10
  rw [Int.tmod_eq_emod (by omega) (by norm_num)]
  omega

/-- The source's `((i % 12) + 12) % 12` normalization of a truncated
remainder `i = x % 12` (JavaScript `%`) equals the mathematical residue. -/
theorem tmod_normalize_twelve (x : Int) :
    ((x.tmod 12).tmod 12 + 12).tmod 12 = x % 12 := by
  have low := tmod_lower_twelve (x.tmod 12)
  have hi := Int.tmod_lt_of_pos (x.tmod 12) (show (0 : ℤ) < 12 by norm_num)
  have c1 := tmod_congr x 12
  have c2 := tmod_congr (x.tmod 12) 12
  rw [Int.tmod_eq_emod (by omega) (by norm_num)]
  omega

end Lemmas

/-- C9: for every pair of the 10 valid stems, `calculateTenGod` never returns
the fallback 未知: any two of the five elements are equal or stand in exactly
one of the four production/destruction relations, so `getElementRelation`
never yields `neutral` on the five-element domain and the `default` branch of
`calculateTenGod` is unreachable for valid stem inputs. -/
theorem c9_ten_god_total :
    (∀ e1 e2 : Element,
      getElementRelation e1 e2 ∈
        ([.same, .generate, .overcome, .beGenerated, .beOvercome] :
          List ElementRelation)) ∧
    (∀ dayMaster targetStem : Stem,
      calculateTenGod dayMaster targetStem ∈
        ([.biJian, .jieCai, .shiShen, .shangGuan, .pianCai, .zhengCai, .qiSha,
          .zhengGuan, .pianYinStar, .zhengYinStar] : List TenGod)) := by
  decide

/-- C10: for every element and branch, `getMonthStrength` returns one of
exactly the eight labels 旺/相/休/死/绝/墓/生/余气 — the label 囚, although
weighted −2 in the month-score table, is never produced, and the fallback 平
(weight 0) is unreachable — and every one of the eight labels is attained. -/
theorem c10_month_strength_range :
    (∀ (e : Element) (b : Branch),
      getMonthStrength e b ∈
        ([.wang, .xiang, .xiu, .si, .jue, .mu, .sheng, .yuqi] :
          List SeasonStrength)) ∧
    (∀ l : SeasonStrength,
      l = .qiu ∨ l = .ping ∨ ∃ (e : Element) (b : Branch),
        getMonthStrength e b = l) ∧
    monthScoreOf .qiu = -2 ∧
    monthScoreOf .ping = 0 := by
  refine ⟨by decide, by decide, rfl, rfl⟩

/-- C3: `getStrengthLevel` classifies the total score into bands inclusive on
their lower bound — ≥6 太旺, [3,6) 偏旺, [−1,3) 中和, [−4,−1) 偏弱, <−4 太弱 —
and in particular a total of exactly 3 is 偏旺 while 2.999 is 中和. -/
theorem c3_strength_level_bands :
    (∀ o : OverallStrength,
      (getStrengthLevel o = .taiWang ↔ 6 ≤ o.total_score) ∧
      (getStrengthLevel o = .pianWang ↔ 3 ≤ o.total_score ∧ o.total_score < 6) ∧
      (getStrengthLevel o = .zhongHe ↔ -1 ≤ o.total_score ∧ o.total_score < 3) ∧
      (getStrengthLevel o = .pianRuo ↔ -4 ≤ o.total_score ∧ o.total_score < -1) ∧
      (getStrengthLevel o = .taiRuo ↔ o.total_score < -4)) ∧
    getStrengthLevel ⟨0, 0, 0, 3⟩ = .pianWang ∧
    getStrengthLevel ⟨0, 0, 0, 2.999⟩ = .zhongHe := by
  refine ⟨fun o => ?_, by norm_num [getStrengthLevel], by norm_num [getStrengthLevel]⟩
  unfold getStrengthLevel
  dsimp only
  split_ifs with h1 h2 h3 h4 <;> simp_all
  all_goals
    first
      | linarith
      | exact fun h => by linarith
      | (refine ⟨?_, ?_⟩ <;> first | linarith | exact fun h => by linarith)
      | (refine ⟨?_, ?_, ?_⟩ <;> first | linarith | exact fun h => by linarith)

/-- C6: `calculateTenGod X X` is 比肩; on equal elements the label is 比肩 or
劫财 by polarity match; in general the label on distinct stems is a function
of the five-element relation and the polarity match alone; and when X's
element produces Y's element the two orders classify differently. -/
theorem c6_ten_god_algebra :
    (∀ X : Stem, calculateTenGod X X = .biJian) ∧
    (∀ X Y : Stem, getElementFromStem X = getElementFromStem Y →
      calculateTenGod X Y =
        (if getStemYinYang X = getStemYinYang Y then .biJian else .jieCai)) ∧
    (∀ X Y X' Y' : Stem, X ≠ Y → X' ≠ Y' →
      getElementRelation (getElementFromStem X) (getElementFromStem Y) =
        getElementRelation (getElementFromStem X') (getElementFromStem Y') →
      ((getStemYinYang X = getStemYinYang Y) ↔
        (getStemYinYang X' = getStemYinYang Y')) →
      calculateTenGod X Y = calculateTenGod X' Y') ∧
    (∀ X Y : Stem, generateCycle (getElementFromStem X) = getElementFromStem Y →
      calculateTenGod X Y ≠ calculateTenGod Y X) := by
  decide

/-- Witness for C6 at concrete stems: 甲 vs 甲 is 比肩, 甲 vs 乙 (same element,
different polarity) is 劫财, the polarity-and-relation congruence transports
甲/丙 to 甲/丙, and 甲 (wood) producing 丙 (fire) classifies asymmetrically. -/
theorem c6_ten_god_algebra_witness :
    calculateTenGod .jia .jia = .biJian ∧
    calculateTenGod .jia .yi = .jieCai ∧
    calculateTenGod .jia .bing = calculateTenGod .jia .bing ∧
    calculateTenGod .jia .bing ≠ calculateTenGod .bing .jia := by
  refine ⟨c6_ten_god_algebra.1 .jia, ?_, ?_, ?_⟩
  · have h := c6_ten_god_algebra.2.1 .jia .yi (by decide)
    simpa using h
  · exact c6_ten_god_algebra.2.2.1 .jia .bing .jia .bing (by decide) (by decide)
      (by decide) (by decide)
  · exact c6_ten_god_algebra.2.2.2 .jia .bing (by decide)

/-- C5: for every day-master element, use-god inference returns — when the
level is 太旺/偏旺 — the destroyer of the element, what it produces and what it
destroys as favorable, and the element itself plus its producer as
unfavorable; with the roles swapped when the level is 太弱/偏弱; and only
situational guidance when 中和. In particular Wood when 偏旺 gets favorable
[金, 火, 土] and unfavorable [木, 水]. -/
theorem c5_use_god_inference :
    (∀ (e : Element) (o : OverallStrength) (p : FourPillars),
      match getStrengthLevel o with
      | .taiWang | .pianWang =>
        ∃ restrainer drained consumed generator : Element,
          (analyzeUseGod e o p).use_god = .fixed [restrainer, drained, consumed] ∧
          (analyzeUseGod e o p).avoid_god = .fixed [e, generator] ∧
          overcomeCycle restrainer = e ∧ generateCycle e = drained ∧
          overcomeCycle e = consumed ∧ generateCycle generator = e
      | .taiRuo | .pianRuo =>
        ∃ restrainer drained consumed generator : Element,
          (analyzeUseGod e o p).use_god = .fixed [generator, e] ∧
          (analyzeUseGod e o p).avoid_god = .fixed [restrainer, drained, consumed] ∧
          overcomeCycle restrainer = e ∧ generateCycle e = drained ∧
          overcomeCycle e = consumed ∧ generateCycle generator = e
      | .zhongHe =>
        (analyzeUseGod e o p).use_god = .situational ∧
        (analyzeUseGod e o p).avoid_god = .situational) ∧
    (analyzeUseGod .wood ⟨0, 0, 0, 4⟩
        ⟨⟨.jia, .zi⟩, ⟨.jia, .zi⟩, ⟨.jia, .zi⟩, ⟨.jia, .zi⟩⟩).use_god =
      .fixed [.metal, .fire, .earth] ∧
    (analyzeUseGod .wood ⟨0, 0, 0, 4⟩
        ⟨⟨.jia, .zi⟩, ⟨.jia, .zi⟩, ⟨.jia, .zi⟩, ⟨.jia, .zi⟩⟩).avoid_god =
      .fixed [.wood, .water] := by
  refine ⟨fun e o p => ?_, ?_, ?_⟩
  · rcases h : getStrengthLevel o <;> simp [analyzeUseGod, h] <;> cases e <;> decide
  · norm_num [analyzeUseGod, getStrengthLevel, getRestrainElements,
      getDrainElements, getConsumeElements]
  · norm_num [analyzeUseGod, getStrengthLevel, getGenerateElements]

/-- C8: the favorable and unfavorable sets of use-god inference are a function
of the day-master element and the strength level alone — the chart argument
and everything in the strength record beyond its classification are ignored —
and for the strong/weak branches the two sets are disjoint. -/
theorem c8_use_god_functionality :
    ∀ (e : Element) (o o' : OverallStrength) (p p' : FourPillars),
      getStrengthLevel o = getStrengthLevel o' →
      analyzeUseGod e o p = analyzeUseGod e o' p' ∧
      (getStrengthLevel o = .zhongHe ∨
        ((analyzeUseGod e o p).use_god.elemsOf).inter
          ((analyzeUseGod e o p).avoid_god.elemsOf) = []) := by
  intro e o o' p p' h
  rcases hl : getStrengthLevel o <;>
    rw [hl] at h <;>
    simp [analyzeUseGod, hl, ← h] <;>
    cases e <;> decide

/-- Witness for C8: two different strength records that both classify 太旺,
with two different charts, give Wood identical use-god results, and the
favorable and unfavorable lists are disjoint. -/
theorem c8_use_god_functionality_witness :
    analyzeUseGod .wood ⟨0, 0, 0, 10⟩
        ⟨⟨.jia, .zi⟩, ⟨.jia, .zi⟩, ⟨.jia, .zi⟩, ⟨.jia, .zi⟩⟩ =
      analyzeUseGod .wood ⟨1, 2, 3, 7⟩
        ⟨⟨.bing, .wu⟩, ⟨.bing, .wu⟩, ⟨.bing, .wu⟩, ⟨.bing, .wu⟩⟩ ∧
    (getStrengthLevel ⟨0, 0, 0, 10⟩ = .zhongHe ∨
      ((analyzeUseGod .wood ⟨0, 0, 0, 10⟩
          ⟨⟨.jia, .zi⟩, ⟨.jia, .zi⟩, ⟨.jia, .zi⟩, ⟨.jia, .zi⟩⟩).use_god.elemsOf).inter
        ((analyzeUseGod .wood ⟨0, 0, 0, 10⟩
          ⟨⟨.jia, .zi⟩, ⟨.jia, .zi⟩, ⟨.jia, .zi⟩, ⟨.jia, .zi⟩⟩).avoid_god.elemsOf) = []) :=
  c8_use_god_functionality .wood ⟨0, 0, 0, 10⟩ ⟨1, 2, 3, 7⟩
    ⟨⟨.jia, .zi⟩, ⟨.jia, .zi⟩, ⟨.jia, .zi⟩, ⟨.jia, .zi⟩⟩
    ⟨⟨.bing, .wu⟩, ⟨.bing, .wu⟩, ⟨.bing, .wu⟩, ⟨.bing, .wu⟩⟩
    (by norm_num [getStrengthLevel])

/-- C7: the year pillar uses the birth year unless the boundary resolver says
the instant is before Start of Spring (then year − 1); its indices are the
mathematical residues of `actualYear − 1984` modulo 10 and 12, normalized into
`[0,10)` and `[0,12)` even when the raw JavaScript remainder is negative, and
the stem/branch are the cycle entries at those indices. -/
theorem c7_year_pillar_normalization :
    ∀ (isAfterSpringBeginning : Int → Int → Int → Int → Int → Bool)
      (year month day hour minute : Int),
      (calculateYearPillar isAfterSpringBeginning year month day hour minute).stemIndex =
        ((if isAfterSpringBeginning year month day hour minute then year
          else year - 1) - 1984) % 10 ∧
      0 ≤ (calculateYearPillar isAfterSpringBeginning year month day hour minute).stemIndex ∧
      (calculateYearPillar isAfterSpringBeginning year month day hour minute).stemIndex < 10 ∧
      (calculateYearPillar isAfterSpringBeginning year month day hour minute).branchIndex =
        ((if isAfterSpringBeginning year month day hour minute then year
          else year - 1) - 1984) % 12 ∧
      0 ≤ (calculateYearPillar isAfterSpringBeginning year month day hour minute).branchIndex ∧
      (calculateYearPillar isAfterSpringBeginning year month day hour minute).branchIndex < 12 ∧
      (calculateYearPillar isAfterSpringBeginning year month day hour minute).stem =
        getStemByIndex
          (calculateYearPillar isAfterSpringBeginning year month day hour minute).stemIndex ∧
      (calculateYearPillar isAfterSpringBeginning year month day hour minute).branch =
        getBranchByIndex
          (calculateYearPillar isAfterSpringBeginning year month day hour minute).branchIndex := by
  intro f y m d h mi
  unfold calculateYearPillar
  dsimp only
  refine ⟨tmod_normalize_ten _, ?_, ?_, tmod_normalize_twelve _, ?_, ?_, rfl, rfl⟩
  · rw [tmod_normalize_ten]
    exact Int.emod_nonneg _ (by norm_num)
  · rw [tmod_normalize_ten]
    exact Int.emod_lt_of_pos _ (by norm_num)
  · rw [tmod_normalize_twelve]
    exact Int.emod_nonneg _ (by norm_num)
  · rw [tmod_normalize_twelve]
    exact Int.emod_lt_of_pos _ (by norm_num)

/-- C2: for any collaborators and birth date, at hour 23 (late 子) the chart
keeps the day pillar at the lookup for the birth day while the hour stem is
derived — rat-start table plus hour-branch index 0, mod 10 — from the stem
index of a second lookup at the following calendar day; at hour 0 (early 子)
both the day pillar and the hour-stem derivation use the birth day. -/
theorem c2_zi_hour_day_boundary :
    ∀ (spring : Int → Int → Int → Int → Int → Bool)
      (solarMonth : Int → Int → Int → Int → Int → Branch)
      (lookup : Int → Int → Int → DayPillarRec)
      (y m d : Int) (minute : Nat),
      ((calculatePreciseBazi spring solarMonth lookup y m d 23 minute).day_pillar =
          ⟨(lookup y m d).stem, (lookup y m d).branch⟩ ∧
        (calculatePreciseBazi spring solarMonth lookup y m d 23 minute).hour_pillar.stem =
          getStemByIndex
            (((hourStemBase
                (lookup (jsNextDay y m d).year (jsNextDay y m d).month
                  (jsNextDay y m d).day).stemIndex + 0) % 10 : Nat) : Int) ∧
        (calculatePreciseBazi spring solarMonth lookup y m d 23 minute).hour_is_late_zishi =
          true) ∧
      ((calculatePreciseBazi spring solarMonth lookup y m d 0 minute).day_pillar =
          ⟨(lookup y m d).stem, (lookup y m d).branch⟩ ∧
        (calculatePreciseBazi spring solarMonth lookup y m d 0 minute).hour_pillar.stem =
          getStemByIndex
            (((hourStemBase (lookup y m d).stemIndex + 0) % 10 : Nat) : Int) ∧
        (calculatePreciseBazi spring solarMonth lookup y m d 0 minute).hour_is_early_zishi =
          true) := by
  intro spring solarMonth lookup y m d minute
  exact ⟨⟨rfl, rfl, rfl⟩, rfl, rfl, rfl⟩

/-- C1 (failing input): for Day Master element Wood and a chart whose four
branches are all 子 — whose single (main) hidden stem is 癸, a Water stem, and
Water produces Wood — the hidden-stem scorer assigns each of the four
contributions −1·1.0 (relation computed as `generate` of the hidden element
toward the day element) for a total of −4, where the claim's scoring (+2 for a
hidden stem whose element produces the Day Master, weight 1.0, total +8)
requires +2·1.0 each. -/
theorem c1_hidden_support_water_chart :
    getElementFromStem .gui = .water ∧
    generateCycle .water = .wood ∧
    getElementRelation .water .wood = .generate ∧
    getBranchHiddenStems .zi = [.gui] ∧
    analyzeHiddenStemSupport .wood
        ⟨⟨.jia, .zi⟩, ⟨.jia, .zi⟩, ⟨.jia, .zi⟩, ⟨.jia, .zi⟩⟩ =
      { total_score := -4
        details :=
          [⟨.zi, .gui, .generate, -1⟩, ⟨.zi, .gui, .generate, -1⟩,
           ⟨.zi, .gui, .generate, -1⟩, ⟨.zi, .gui, .generate, -1⟩]
        level := .henRuo } := by
  refine ⟨rfl, rfl, rfl, rfl, ?_⟩
  have hhs : getBranchHiddenStems Branch.zi = [Stem.gui] := rfl
  have henum : ([Stem.gui]).enum = [(0, Stem.gui)] := rfl
  have hrel : getElementRelation (getElementFromStem Stem.gui) Element.wood =
      ElementRelation.generate := rfl
  have hscore : hiddenRelationScore ElementRelation.generate = -1 := rfl
  have hpos : positionMultiplier 0 = 1 := rfl
  norm_num [analyzeHiddenStemSupport, List.foldl_cons, List.foldl_nil, hhs,
    henum, hrel, hscore, hpos]

/-- Counterexample to C4 as stated: for Day Master element Wood and visible
stems 癸 (year), 甲 (month), 甲 (hour), the code totals 3.5 — the Water stem
癸, whose element produces Wood, scores −0.5 — while the claim's mapping
(+1.5 for a stem whose element produces the Day Master's) totals 5.5. -/
theorem c4_stem_support_counterexample :
    (analyzeStemSupport .wood
        ⟨⟨.gui, .zi⟩, ⟨.jia, .zi⟩, ⟨.jia, .zi⟩, ⟨.jia, .zi⟩⟩).total_score = 3.5 ∧
    claimedStemScoreC4 .wood (getElementFromStem .gui) +
        claimedStemScoreC4 .wood (getElementFromStem .jia) +
        claimedStemScoreC4 .wood (getElementFromStem .jia) = 5.5 ∧
    (analyzeStemSupport .wood
        ⟨⟨.gui, .zi⟩, ⟨.jia, .zi⟩, ⟨.jia, .zi⟩, ⟨.jia, .zi⟩⟩).total_score ≠
      claimedStemScoreC4 .wood (getElementFromStem .gui) +
        claimedStemScoreC4 .wood (getElementFromStem .jia) +
        claimedStemScoreC4 .wood (getElementFromStem .jia) := by
  have hge : getElementFromStem Stem.gui = Element.water := rfl
  have hja : getElementFromStem Stem.jia = Element.wood := rfl
  have hrel1 : getElementRelation Element.water Element.wood =
      ElementRelation.generate := rfl
  have hrel2 : getElementRelation Element.wood Element.wood =
      ElementRelation.same := rfl
  have hs1 : stemRelationScore ElementRelation.generate = -0.5 := rfl
  have hs2 : stemRelationScore ElementRelation.same = 2 := rfl
  have hc1 : claimedStemScoreC4 Element.wood Element.water = 1.5 := rfl
  have hc2 : claimedStemScoreC4 Element.wood Element.wood = 2 := rfl
  have hyd : PillarPosition.year ≠ PillarPosition.day := by decide
  have hmd : PillarPosition.month ≠ PillarPosition.day := by decide
  have hhd : PillarPosition.hour ≠ PillarPosition.day := by decide
  refine ⟨?_, ?_, ?_⟩ <;>
    norm_num [analyzeStemSupport, List.foldl_cons, List.foldl_nil, hge, hja,
      hrel1, hrel2, hs1, hs2, hc1, hc2, hyd, hmd, hhd]

/-- The per-stem score of `analyzeStemSupport` — computed by the source as
`stemRelationScore (getElementRelation stemElement dayElement)` — agrees with
the amended claim C4 mapping on every element pair. -/
theorem stemRelationScore_eq_amended (d s : Element) :
    stemRelationScore (getElementRelation s d) = amendedStemScore d s := by
  cases d <;> cases s <;> rfl

/-- C4 (amended): the visible-stem support considers exactly the three
non-day stems, scoring each — with no positional weighting — +2 on the same
element, +1.5 when the Day Master's element produces the stem's element, −0.5
when the stem's element produces the Day Master's element, −1 when the stem's
element destroys the Day Master's element, −1.5 when the Day Master's element
destroys the stem's element; the total is their sum and every nonzero
contribution is itemized in pillar order. -/
theorem c4_stem_support_amended :
    ∀ (dayElement : Element) (pillars : FourPillars),
      (analyzeStemSupport dayElement pillars).total_score =
        (amendedStemSupportSpec dayElement pillars).1 ∧
      (analyzeStemSupport dayElement pillars).details =
        (amendedStemSupportSpec dayElement pillars).2 := by
  intro e p
  obtain ⟨⟨ys, yb⟩, ⟨ms, mb⟩, ⟨ds, db⟩, ⟨hs, hb⟩⟩ := p
  have hyd : PillarPosition.year ≠ PillarPosition.day := by decide
  have hmd : PillarPosition.month ≠ PillarPosition.day := by decide
  have hhd : PillarPosition.hour ≠ PillarPosition.day := by decide
  simp only [analyzeStemSupport, amendedStemSupportSpec, amendedStemDetail,
    List.foldl, stemRelationScore_eq_amended, gt_iff_lt, abs_pos, hyd, hmd,
    hhd, ite_true, ite_false, if_true, if_false, ne_eq, not_false_eq_true]
  constructor
  · ring
  · split_ifs <;> simp

end Suanming
